import Mathlib

/-!
# Verification of the zegami-python-sdk mask-annotation subsystem

Shallow embedding of `zegami_sdk/annotation.py`: the `_Annotation` base
class accessors, `AnnotationMask.create_uploadable`, `parse_bool_masks`,
`get_bool_mask_bounds`, and the encode/decode round trip for the
base64-embedded 1-bit PNG mask payload.

Modelling conventions:
- numpy arrays are a dtype tag, a shape, and a row-major flattened data
  list of natural numbers (boolean arrays store 0/1);
- Python exceptions are an `Except` error carrying the exception class
  name and its message (Lean identifiers use `Annot` for the Python
  class-name stem `Annotation`);
- machine bytes are `Nat` with explicit `% 256` where wrapping matters;
- the PNG codec itself lives in the external PIL library, not in this
  repository, so it is modelled from the spec as a lossless 1-bit raster
  codec; everything else is translated from the source.
-/

/-- A Python exception: its class name (e.g. `AssertionError`) and message.
In Python, `AssertionError`, `TypeError` and `ValueError` are distinct,
unrelated classes (none is a subclass of another). -/
structure PyErr where
  cls : String
  msg : String
deriving DecidableEq, Repr

/-- numpy dtype tag: either `bool` or some other dtype (named). -/
inductive NpDType where
  | bool : NpDType
  | other : String → NpDType
deriving DecidableEq, Repr

/-- Printable dtype name, as it would appear in a Python format string. -/
def dtypeName : NpDType → String
  | NpDType.bool => "bool"
  | NpDType.other n => n

/-- A Python value passed to the annotation API: either a numpy array
(dtype, shape, row-major flattened data; boolean arrays store 0/1), or a
non-array value carrying the printable name of its type. -/
inductive PyVal where
  | ndarray : NpDType → List Nat → List Nat → PyVal
  | other : String → PyVal
deriving DecidableEq, Repr

/-- Python `str(shape)`-style rendering of a shape tuple used by the
assertion messages. -/
def fmtShape (shape : List Nat) : String :=
  "(" ++ String.intercalate ", " (shape.map toString) ++ ")"

/-- `AnnotationMask.parse_bool_masks` (annotation.py lines 200-215):
asserts the input is a numpy array of dtype bool, and re-shapes a
2-dimensional `(h, w)` array to `(h, w, 1)` via `np.expand_dims(_, -1)`
(row-major flattened data is unchanged); any other rank passes through
unchanged. The two Python `assert` statements raise `AssertionError`. -/
def parse_bool_masks (bool_masks : PyVal) : Except PyErr PyVal :=
  match bool_masks with
  | PyVal.other t =>
      Except.error ⟨"AssertionError", "Expected bool_masks to be a numpy array, not " ++ t⟩
  | PyVal.ndarray dt shape dat =>
      if dt ≠ NpDType.bool then
        Except.error ⟨"AssertionError",
          "Expected bool_masks to have dtype == bool, not " ++ dtypeName dt⟩
      else if shape.length = 2 then
        Except.ok (PyVal.ndarray dt (shape ++ [1]) dat)
      else
        Except.ok (PyVal.ndarray dt shape dat)

/-- Value of the first plane `parsed[:, :, 0]` at row `i`, column `j`:
row-major flattened index `(i * w + j) * n` of a `(h, w, n)` array
(out-of-range reads never occur for well-formed arrays; `getD` defaults
to 0). -/
def planeVal (w n : Nat) (dat : List Nat) (i j : Nat) : Nat :=
  dat.getD ((i * w + j) * n) 0

/-- `np.any(bool_mask, axis=1) [i]`: does row `i` hold a nonzero entry. -/
def rowAnyB (w n : Nat) (dat : List Nat) (i : Nat) : Bool :=
  (List.range w).any (fun j => decide (planeVal w n dat i j ≠ 0))

/-- `np.any(bool_mask, axis=0) [j]`: does column `j` hold a nonzero entry. -/
def colAnyB (h w n : Nat) (dat : List Nat) (j : Nat) : Bool :=
  (List.range h).any (fun i => decide (planeVal w n dat i j ≠ 0))

/-- Result record of `get_bool_mask_bounds`. -/
structure MaskBounds where
  top : Nat
  bottom : Nat
  left : Nat
  right : Nat
deriving DecidableEq, Repr

/-- `AnnotationMask.get_bool_mask_bounds` (annotation.py lines 217-231):
parses the mask, selects plane 0, reduces with `np.any` along each axis,
and takes first/last true indices via `np.where(rows)[0][[0, -1]]`.
`np.where(v)[0]` is exactly the increasing list of indices where `v` is
true, here `(List.range _).filter _`; indexing `[[0, -1]]` is
head/getLast, raising `IndexError` on an empty index list, which the bare
`except:` turns into all-zero bounds. Selecting `[:, :, 0]` on a parsed
rank other than 3 raises `IndexError` outside the `try` (the class only
ever reaches this point with rank-3 data, i.e. 2-D or 3-D input). -/
def get_bool_mask_bounds (bool_mask : PyVal) : Except PyErr MaskBounds :=
  match parse_bool_masks bool_mask with
  | Except.error e => Except.error e
  | Except.ok (PyVal.ndarray _ [h, w, n] dat) =>
      let ridx := (List.range h).filter (rowAnyB w n dat)
      let cidx := (List.range w).filter (colAnyB h w n dat)
      match ridx.head?, ridx.getLast?, cidx.head?, cidx.getLast? with
      | some t, some b, some l, some r => Except.ok ⟨t, b, l, r⟩
      | _, _, _, _ => Except.ok ⟨0, 0, 0, 0⟩
  | Except.ok _ => Except.error ⟨"IndexError", "too many indices for array"⟩

/-- The head/getLast selection step of `get_bool_mask_bounds` on its two
`np.where` index lists, split out for reasoning. -/
def boundsMatch (ridx cidx : List Nat) : MaskBounds :=
  match ridx.head?, ridx.getLast?, cidx.head?, cidx.getLast? with
  | some t, some b, some l, some r => ⟨t, b, l, r⟩
  | _, _, _, _ => ⟨0, 0, 0, 0⟩

/-! ## Base64 (Python `base64.b64encode`, standard RFC 4648 alphabet) -/

/-- The standard base64 alphabet. -/
def b64chars : List Char :=
  "ABCDEFGHIJKLMNOPQRSTUVWXYZabcdefghijklmnopqrstuvwxyz0123456789+/".toList

/-- Character for a 6-bit group. -/
def b64char (n : Nat) : Char := b64chars.getD n 'A'

/-- Index of a base64 character in the alphabet (0 when absent). -/
def b64index (c : Char) : Nat :=
  ((b64chars.findIdx? (fun d => d == c)).getD 0)

/-- `base64.b64encode` on a byte list: 3 bytes become 4 alphabet
characters; a 1- or 2-byte tail is padded with `=`. -/
def b64encodeList : List Nat → List Char
  | [] => []
  | [a] => [b64char (a / 4), b64char (a % 4 * 16), '=', '=']
  | [a, b] => [b64char (a / 4), b64char (a % 4 * 16 + b / 16), b64char (b % 16 * 4), '=']
  | a :: b :: d :: rest =>
      b64char (a / 4) :: b64char (a % 4 * 16 + b / 16) ::
      b64char (b % 16 * 4 + d / 64) :: b64char (d % 64) :: b64encodeList rest

/-- Base64 decoding (the inverse direction used by the decoder): 4
characters back to 3 bytes, with `=` padding cutting the tail short. -/
def b64decodeList : List Char → List Nat
  | c0 :: c1 :: c2 :: c3 :: rest =>
      if c2 = '=' then [b64index c0 * 4 + b64index c1 / 16]
      else if c3 = '=' then
        [b64index c0 * 4 + b64index c1 / 16, b64index c1 % 16 * 16 + b64index c2 / 4]
      else
        (b64index c0 * 4 + b64index c1 / 16) ::
        (b64index c1 % 16 * 16 + b64index c2 / 4) ::
        ((b64index c2 % 4 * 64 + b64index c3) :: b64decodeList rest)
  | _ => []

/-! ## PNG codec (external PIL library, modelled from the spec) -/

/-- Little-endian 4-byte encoding of a (PNG-representable) dimension. -/
def encNat32 (n : Nat) : List Nat :=
  [n % 256, n / 256 % 256, n / 65536 % 256, n / 16777216 % 256]

/-- Inverse of `encNat32` for values below `2^32`. -/
def decNat32 (b0 b1 b2 b3 : Nat) : Nat :=
  b0 + 256 * b1 + 65536 * b2 + 16777216 * b3

/-- Modelled from the spec: `Image.save(format='PNG')` of a 1-bit PIL
image — "a lossless 1-bit-per-pixel compressed image format". The PIL
PNG serializer is external to this repository; it is modelled as a
self-describing lossless byte stream: the two dimensions followed by one
byte (0/1) per pixel in row-major order. -/
def pngEncode (h w : Nat) (bit_pixels : List Nat) : List Nat :=
  encNat32 h ++ encNat32 w ++ bit_pixels

/-- Modelled from the spec: decompressing the image — inverse of
`pngEncode`. Loading a 1-bit image yields pixel values 0 or 255 (PIL
`'1'` mode renders set bits as 255); a byte-count mismatch is a corrupt
stream (`none`). -/
def pngDecode (bytes : List Nat) : Option (Nat × Nat × List Nat) :=
  match bytes with
  | b0 :: b1 :: b2 :: b3 :: c0 :: c1 :: c2 :: c3 :: rest =>
      let h := decNat32 b0 b1 b2 b3
      let w := decNat32 c0 c1 c2 c3
      if rest.length = h * w then
        some (h, w, rest.map (fun b => if b ≠ 0 then 255 else 0))
      else none
  | _ => none

/-! ## The uploadable structure -/

/-- `roi` dictionary of `create_uploadable`. All entries are `int(...)`
coercions of `np.where` indices (or the 0 fallback), hence natural
numbers. -/
structure Roi where
  xmin : Nat
  xmax : Nat
  ymin : Nat
  ymax : Nat
  width : Nat
  height : Nat
deriving DecidableEq, Repr

/-- The `data` dictionary assembled by `AnnotationMask.create_uploadable`. -/
structure MaskData where
  mask : String
  width : Nat
  height : Nat
  score : Option Int
  roi : Roi
deriving DecidableEq, Repr

/-- The upload envelope: `_Annotation.create_uploadable` base dictionary
(`type`, `format`, `annotation`) plus the `class_id` key added by the
mask subclass (absent keys are `none`; the `annotation` key is spelled
`annot`). -/
structure Uploadable where
  type : Option String
  format : Option String
  annot : Option MaskData
  class_id : Option Int
deriving DecidableEq, Repr

/-- `_Annotation.create_uploadable` (annotation.py lines 79-86): the base
dictionary `{type: cls.TYPE, format: None, annotation: None}` (no
`class_id` key yet). -/
def base_create_uploadable (TYPE : Option String) : Uploadable :=
  ⟨TYPE, none, none, none⟩

/-- `AnnotationMask.TYPE = 'mask'`. -/
def AnnotMask_TYPE : Option String := some "mask"

/-- `AnnotationMask.create_uploadable` (annotation.py lines 113-162).
Steps, in source order: three `assert` statements (numpy array, bool
dtype, rank 2); `h, w = bool_mask.shape`; `astype('uint8') * 255` (byte
arithmetic, hence `% 256`); `.convert('1')` (threshold at 128 — PIL
dithering is the identity on a pure 0/255 image); PNG-serialize;
base64-encode; data-URI wrap; bounds; assemble `roi`, `data`, and the
envelope with `format='1UC1'` and `class_id=int(class_id)` (the class id
is modelled as already an integer, so `int` is the identity). -/
def create_uploadable (bool_mask : PyVal) (class_id : Int) : Except PyErr Uploadable :=
  match bool_mask with
  | PyVal.other t =>
      Except.error ⟨"AssertionError", "Expected bool_mask to be a numpy array, not " ++ t⟩
  | PyVal.ndarray dt shape dat =>
      if dt ≠ NpDType.bool then
        Except.error ⟨"AssertionError",
          "Expected bool_mask.dtype to be bool, not " ++ dtypeName dt⟩
      else if shape.length ≠ 2 then
        Except.error ⟨"AssertionError",
          "Expected bool_mask to have a shape of 2 (height, width), not " ++ fmtShape shape⟩
      else
        let h := shape.getD 0 0
        let w := shape.getD 1 0
        let grayscale := dat.map (fun e => e * 255 % 256)
        let bit_pixels := grayscale.map (fun p => if 128 ≤ p then 1 else 0)
        let byte_data := pngEncode h w bit_pixels
        let mask_b64 := b64encodeList byte_data
        let mask_string := "data:image/png;base64," ++ String.mk mask_b64
        match get_bool_mask_bounds bool_mask with
        | Except.error e => Except.error e
        | Except.ok bounds =>
            let roi : Roi := ⟨bounds.left, bounds.right, bounds.top, bounds.bottom,
              bounds.right - bounds.left, bounds.bottom - bounds.top⟩
            let mdata : MaskData := ⟨mask_string, w, h, none, roi⟩
            let base := base_create_uploadable AnnotMask_TYPE
            Except.ok { base with
              format := some "1UC1", annot := some mdata, class_id := some class_id }

/-! ## The decoder (spec §4.4, "implicit counterpart") -/

/-- Split a row-major flattened plane back into `h` rows of `w` entries. -/
def unflatten : Nat → Nat → List Bool → List (List Bool)
  | 0, _, _ => []
  | k + 1, w, l => l.take w :: unflatten k w (l.drop w)

/-- Modelled from the spec: the MaskDecoder, absent from the source
("implicit counterpart, symmetric responsibility") — strip the data-URI
prefix, base64-decode, decompress the image, threshold `pixel == 255 →
true`, and yield the (by construction exactly 2-dimensional boolean)
plane; a malformed payload is a data-integrity error (`none`). -/
def decodeMaskString (s : String) : Option (List (List Bool)) :=
  let cs := s.toList
  if cs.take 22 = "data:image/png;base64,".toList then
    match pngDecode (b64decodeList (cs.drop 22)) with
    | some (h, w, pixels) => some (unflatten h w (pixels.map (fun p => decide (p = 255))))
    | none => none
  else none

/-! ## Annotation entity accessors -/

/-- Python `repr` of the `_data` dictionary (as interpolated into the
`_image_index` assertion message). -/
def fmtData (dat : List (String × Int)) : String :=
  "\x7b" ++
    String.intercalate ", "
      (dat.map (fun kv => "\x27" ++ kv.1 ++ "\x27: " ++ toString kv.2)) ++
  "\x7d"

/-- `_Annotation._image_index` (annotation.py lines 50-58): asserts
`'image_index' in self._data.keys()` (an `AssertionError` naming the
missing key and formatting the dictionary) and returns the stored value.
The dictionary is modelled as an association list with unique keys. -/
def image_index_get (dat : List (String × Int)) : Except PyErr Int :=
  match dat.lookup "image_index" with
  | some v => Except.ok v
  | none =>
      Except.error ⟨"AssertionError",
        "Annotation\x27s _data did not contain \x27image_index\x27: " ++ fmtData dat⟩

/-- The externally-owned collection context: exposes the ordered
per-source image-index lookup sequence (`_get_image_meta_lookup`). -/
structure Collection where
  image_meta_lookup : Option String → List Int

/-- Python `list.index(v)`: index of the first occurrence, `none` when
absent (where Python raises `ValueError`). -/
def pyListIndex (l : List Int) (v : Int) : Option Nat :=
  match l with
  | [] => none
  | x :: rest => if x = v then some 0 else (pyListIndex rest v).map (fun i => i + 1)

/-- `_Annotation.row_index` (annotation.py lines 60-67): fetch the lookup
sequence from the collection for the annotation's source (on every
access — the getter holds no cache), and return
`lookup.index(self._image_index)`; an absent image index propagates the
container's `ValueError`. -/
def row_index_get (col : Collection) (source : Option String)
    (dat : List (String × Int)) : Except PyErr Nat :=
  match image_index_get dat with
  | Except.error e => Except.error e
  | Except.ok v =>
      match pyListIndex (col.image_meta_lookup source) v with
      | some i => Except.ok i
      | none => Except.error ⟨"ValueError", toString v ++ " is not in list"⟩

/-! ## The `AnnotationMask.__init__` arity mismatch -/

/-- CPython positional-arity check for a call of a plain function:
`TypeError` when the count of positional arguments received (the bound
`self` included) falls outside the declared span. -/
def pyArityError (funcName : String) (minTot maxTot given : Nat) : Option PyErr :=
  if given < minTot ∨ maxTot < given then
    some ⟨"TypeError",
      funcName ++ "() takes from " ++ toString minTot ++ " to " ++ toString maxTot ++
        " positional arguments but " ++ toString given ++ " were given"⟩
  else none

/-- `AnnotationMask.__init__` (annotation.py lines 106-111): its body is
the single call `super(AnnotationMask, self).__init__(self, collection,
row_index, source, from_filepath, from_url, imageset_id, image_index)` —
8 explicit positional arguments plus the bound `self`, 9 in total, against
`_Annotation.__init__(self, collection, annotation_data, source=None)`
which accepts 3 to 4 positional parameters (`self` included). The
argument values are irrelevant to the arity check, so their types here
are nominal. -/
def AnnotMask_init (_collection : Collection) (_row_index_arg : Int)
    (_source _from_filepath _from_url _imageset_id _image_index_arg : Option String) :
    Except PyErr Unit :=
  match pyArityError "__init__" 3 4 9 with
  | some e => Except.error e
  | none => Except.ok ()

/-! ## Helper lemmas: filters of `List.range` (the `np.where` index lists) -/

lemma filter_range_eq_nil_iff (p : Nat → Bool) (n : Nat) :
    (List.range n).filter p = [] ↔ ∀ i < n, p i = false := by
  induction n with
  | zero => simp
  | succ n ih =>
    rw [List.range_succ, List.filter_append, List.append_eq_nil]
    constructor
    · rintro ⟨h1, h2⟩ i hi
      rcases Nat.lt_succ_iff_lt_or_eq.mp hi with hlt | rfl
      · exact ih.mp h1 i hlt
      · by_cases hp : p i
        · simp [List.filter_cons, hp] at h2
        · exact Bool.eq_false_iff.mpr hp
    · intro hall
      refine ⟨ih.mpr (fun i hi => hall i (Nat.lt_succ_of_lt hi)), ?_⟩
      simp [List.filter_cons, hall n (Nat.lt_succ_self n)]

lemma filter_range_head (p : Nat → Bool) (n : Nat) :
    ∀ (x : Nat) (l : List Nat), (List.range n).filter p = x :: l →
      x < n ∧ p x = true ∧ ∀ i < x, p i = false := by
  induction n with
  | zero => intro x l hl; simp at hl
  | succ n ih =>
    intro x l hl
    rw [List.range_succ, List.filter_append] at hl
    rcases hfr : (List.range n).filter p with _ | ⟨y, ys⟩
    · rw [hfr, List.nil_append] at hl
      by_cases hp : p n
      · simp only [List.filter_cons, hp, if_true, List.filter_nil] at hl
        injection hl with h1 h2
        subst h1
        exact ⟨Nat.lt_succ_self n, hp, fun i hi =>
          (filter_range_eq_nil_iff p n).mp hfr i hi⟩
      · simp [List.filter_cons, hp] at hl
    · rw [hfr, List.cons_append] at hl
      injection hl with h1 h2
      subst h1
      obtain ⟨hlt, hpy, hmin⟩ := ih y ys hfr
      exact ⟨Nat.lt_succ_of_lt hlt, hpy, hmin⟩

lemma filter_range_getLast (p : Nat → Bool) (n : Nat) :
    ∀ (l : List Nat) (y : Nat), (List.range n).filter p = l → l.getLast? = some y →
      y < n ∧ p y = true ∧ ∀ i, y < i → i < n → p i = false := by
  induction n with
  | zero => intro l y hf hl; simp at hf; subst hf; simp at hl
  | succ n ih =>
    intro l y hf hl
    rw [List.range_succ, List.filter_append] at hf
    by_cases hp : p n
    · have hone : List.filter p [n] = [n] := by simp [List.filter_cons, hp]
      rw [hone] at hf
      subst hf
      rw [List.getLast?_concat] at hl
      obtain rfl : n = y := by injection hl
      exact ⟨Nat.lt_succ_self _, hp, fun i hyi hin => by omega⟩
    · have hnil : List.filter p [n] = [] := by simp [List.filter_cons, hp]
      rw [hnil, List.append_nil] at hf
      obtain ⟨h1, h2, h3⟩ := ih l y hf hl
      refine ⟨Nat.lt_succ_of_lt h1, h2, fun i hyi hin => ?_⟩
      rcases Nat.lt_succ_iff_lt_or_eq.mp hin with hn | rfl
      · exact h3 i hyi hn
      · exact Bool.eq_false_iff.mpr hp

/-! ## Helper lemmas: division/modulus splitting for 6-bit groups -/

lemma mul_add_div_self (b x y : Nat) (hb : 0 < b) (hy : y < b) : (x * b + y) / b = x := by
  rw [Nat.add_comm, Nat.mul_comm, Nat.add_mul_div_left _ _ hb, Nat.div_eq_of_lt hy,
    Nat.zero_add]

lemma mul_add_mod_self (b x y : Nat) (hy : y < b) : (x * b + y) % b = y := by
  rw [Nat.add_comm, Nat.mul_comm, Nat.add_mul_mod_self_left, Nat.mod_eq_of_lt hy]

/-! ## Helper lemmas: base64 -/

lemma b64index_b64char : ∀ n < 64, b64index (b64char n) = n := by decide

lemma b64char_ne_pad : ∀ n < 64, b64char n ≠ '=' := by decide

theorem b64_roundtrip : ∀ (l : List Nat), (∀ x ∈ l, x < 256) →
    b64decodeList (b64encodeList l) = l
  | [], _ => rfl
  | [a], h => by
    have ha : a < 256 := h a (by simp)
    have h1 := b64index_b64char (a / 4) (by omega)
    have h2 := b64index_b64char (a % 4 * 16) (by omega)
    simp only [b64encodeList, b64decodeList, if_true]
    rw [h1, h2]
    have d1 : a % 4 * 16 / 16 = a % 4 := by
      have e := mul_add_div_self 16 (a % 4) 0 (by norm_num) (by norm_num)
      rw [Nat.add_zero] at e
      exact e
    have g0 : a / 4 * 4 + a % 4 * 16 / 16 = a := by rw [d1]; omega
    rw [g0]
  | [a, b], h => by
    have ha : a < 256 := h a (by simp)
    have hb : b < 256 := h b (by simp)
    have h1 := b64index_b64char (a / 4) (by omega)
    have h2 := b64index_b64char (a % 4 * 16 + b / 16) (by omega)
    have h3 := b64index_b64char (b % 16 * 4) (by omega)
    have hne : b64char (b % 16 * 4) ≠ '=' := b64char_ne_pad _ (by omega)
    simp only [b64encodeList, b64decodeList, if_true]
    rw [if_neg hne, h1, h2, h3]
    have d1 : (a % 4 * 16 + b / 16) / 16 = a % 4 :=
      mul_add_div_self 16 _ _ (by norm_num) (by omega)
    have m1 : (a % 4 * 16 + b / 16) % 16 = b / 16 := mul_add_mod_self 16 _ _ (by omega)
    have d2 : b % 16 * 4 / 4 = b % 16 := by
      have e := mul_add_div_self 4 (b % 16) 0 (by norm_num) (by norm_num)
      rw [Nat.add_zero] at e
      exact e
    have g0 : a / 4 * 4 + (a % 4 * 16 + b / 16) / 16 = a := by rw [d1]; omega
    have g1 : (a % 4 * 16 + b / 16) % 16 * 16 + b % 16 * 4 / 4 = b := by
      rw [m1, d2]; omega
    rw [g0, g1]
  | a :: b :: d :: rest, h => by
    have ha : a < 256 := h a (by simp)
    have hb : b < 256 := h b (by simp)
    have hd : d < 256 := h d (by simp)
    have h1 := b64index_b64char (a / 4) (by omega)
    have h2 := b64index_b64char (a % 4 * 16 + b / 16) (by omega)
    have h3 := b64index_b64char (b % 16 * 4 + d / 64) (by omega)
    have h4 := b64index_b64char (d % 64) (by omega)
    have hne2 : b64char (b % 16 * 4 + d / 64) ≠ '=' := b64char_ne_pad _ (by omega)
    have hne3 : b64char (d % 64) ≠ '=' := b64char_ne_pad _ (by omega)
    have ih := b64_roundtrip rest (fun x hx => h x (by simp [hx]))
    simp only [b64encodeList, b64decodeList]
    rw [if_neg hne2, if_neg hne3, h1, h2, h3, h4, ih]
    have d1 : (a % 4 * 16 + b / 16) / 16 = a % 4 :=
      mul_add_div_self 16 _ _ (by norm_num) (by omega)
    have m1 : (a % 4 * 16 + b / 16) % 16 = b / 16 := mul_add_mod_self 16 _ _ (by omega)
    have d2 : (b % 16 * 4 + d / 64) / 4 = b % 16 :=
      mul_add_div_self 4 _ _ (by norm_num) (by omega)
    have m2 : (b % 16 * 4 + d / 64) % 4 = d / 64 := mul_add_mod_self 4 _ _ (by omega)
    have g0 : a / 4 * 4 + (a % 4 * 16 + b / 16) / 16 = a := by rw [d1]; omega
    have g1 : (a % 4 * 16 + b / 16) % 16 * 16 + (b % 16 * 4 + d / 64) / 4 = b := by
      rw [m1, d2]; omega
    have g2 : (b % 16 * 4 + d / 64) % 4 * 64 + d % 64 = d := by rw [m2]; omega
    rw [g0, g1, g2]

/-! ## Helper lemmas: PNG model, flatten/unflatten -/

lemma decNat32_encNat32 (n : Nat) (hn : n < 4294967296) :
    decNat32 (n % 256) (n / 256 % 256) (n / 65536 % 256) (n / 16777216 % 256) = n := by
  unfold decNat32
  omega

lemma pngDecode_pngEncode (h w : Nat) (bits : List Nat)
    (hh : h < 4294967296) (hw : w < 4294967296) (hlen : bits.length = h * w) :
    pngDecode (pngEncode h w bits) =
      some (h, w, bits.map (fun b => if b ≠ 0 then 255 else 0)) := by
  have e1 := decNat32_encNat32 h hh
  have e2 := decNat32_encNat32 w hw
  simp only [pngEncode, encNat32, List.cons_append, List.nil_append, pngDecode]
  rw [e1, e2, if_pos hlen]

lemma pngEncode_bytes_lt (h w : Nat) (bits : List Nat) (hb : ∀ x ∈ bits, x < 256) :
    ∀ x ∈ pngEncode h w bits, x < 256 := by
  intro x hx
  simp only [pngEncode, List.mem_append] at hx
  rcases hx with (hx | hx) | hx
  · simp only [encNat32, List.mem_cons, List.not_mem_nil, or_false] at hx
    rcases hx with rfl | rfl | rfl | rfl <;> omega
  · simp only [encNat32, List.mem_cons, List.not_mem_nil, or_false] at hx
    rcases hx with rfl | rfl | rfl | rfl <;> omega
  · exact hb x hx

lemma flatten_length_rect (w : Nat) : ∀ (A : List (List Bool)),
    (∀ r ∈ A, r.length = w) → A.flatten.length = A.length * w
  | [], _ => by simp
  | r :: A, hA => by
    have hr : r.length = w := hA r (by simp)
    have ih := flatten_length_rect w A (fun s hs => hA s (by simp [hs]))
    simp only [List.flatten_cons, List.length_append, List.length_cons, ih, hr]
    ring

lemma unflatten_flatten (w : Nat) : ∀ (A : List (List Bool)),
    (∀ r ∈ A, r.length = w) → unflatten A.length w A.flatten = A
  | [], _ => rfl
  | r :: A, hA => by
    have hr : r.length = w := hA r (by simp)
    have ih := unflatten_flatten w A (fun s hs => hA s (by simp [hs]))
    simp only [List.length_cons, List.flatten_cons, unflatten]
    have t1 : (r ++ A.flatten).take w = r := by
      rw [← hr]
      exact List.take_left r A.flatten
    have t2 : (r ++ A.flatten).drop w = A.flatten := by
      rw [← hr]
      exact List.drop_left r A.flatten
    rw [t1, t2, ih]

/-! ## Helper lemmas: bounds -/

lemma planeVal_one (w : Nat) (dat : List Nat) (i j : Nat) :
    planeVal w 1 dat i j = dat.getD (i * w + j) 0 := by
  simp [planeVal]

lemma rowAnyB_true_iff (w n : Nat) (dat : List Nat) (i : Nat) :
    rowAnyB w n dat i = true ↔ ∃ j, j < w ∧ planeVal w n dat i j ≠ 0 := by
  simp [rowAnyB, List.any_eq_true, List.mem_range]

lemma rowAnyB_false_iff (w n : Nat) (dat : List Nat) (i : Nat) :
    rowAnyB w n dat i = false ↔ ∀ j < w, planeVal w n dat i j = 0 := by
  simp [rowAnyB, List.any_eq_false, List.mem_range]

lemma colAnyB_true_iff (h w n : Nat) (dat : List Nat) (j : Nat) :
    colAnyB h w n dat j = true ↔ ∃ i, i < h ∧ planeVal w n dat i j ≠ 0 := by
  simp [colAnyB, List.any_eq_true, List.mem_range]

lemma colAnyB_false_iff (h w n : Nat) (dat : List Nat) (j : Nat) :
    colAnyB h w n dat j = false ↔ ∀ i < h, planeVal w n dat i j = 0 := by
  simp [colAnyB, List.any_eq_false, List.mem_range]

lemma get_bool_mask_bounds_eq (h w : Nat) (dat : List Nat) :
    get_bool_mask_bounds (PyVal.ndarray NpDType.bool [h, w] dat) =
      Except.ok (boundsMatch ((List.range h).filter (rowAnyB w 1 dat))
        ((List.range w).filter (colAnyB h w 1 dat))) := by
  have e : get_bool_mask_bounds (PyVal.ndarray NpDType.bool [h, w] dat) =
      (match ((List.range h).filter (rowAnyB w 1 dat)).head?,
             ((List.range h).filter (rowAnyB w 1 dat)).getLast?,
             ((List.range w).filter (colAnyB h w 1 dat)).head?,
             ((List.range w).filter (colAnyB h w 1 dat)).getLast? with
       | some t, some b, some l, some r => Except.ok (⟨t, b, l, r⟩ : MaskBounds)
       | _, _, _, _ => Except.ok (⟨0, 0, 0, 0⟩ : MaskBounds)) := rfl
  rw [e]
  unfold boundsMatch
  rcases ((List.range h).filter (rowAnyB w 1 dat)).head? with _ | t <;>
    rcases ((List.range h).filter (rowAnyB w 1 dat)).getLast? with _ | b <;>
    rcases ((List.range w).filter (colAnyB h w 1 dat)).head? with _ | l <;>
    rcases ((List.range w).filter (colAnyB h w 1 dat)).getLast? with _ | r <;>
    rfl

lemma boundsMatch_of_ne_nil (ridx cidx : List Nat) (hr : ridx ≠ []) (hc : cidx ≠ []) :
    ∃ t b l r, boundsMatch ridx cidx = ⟨t, b, l, r⟩ ∧
      ridx.head? = some t ∧ ridx.getLast? = some b ∧
      cidx.head? = some l ∧ cidx.getLast? = some r := by
  rcases ridx with _ | ⟨x, xs⟩
  · exact absurd rfl hr
  rcases cidx with _ | ⟨y, ys⟩
  · exact absurd rfl hc
  obtain ⟨b, hb⟩ := Option.isSome_iff_exists.mp
    (List.getLast?_isSome.mpr (List.cons_ne_nil x xs))
  obtain ⟨r, hrr⟩ := Option.isSome_iff_exists.mp
    (List.getLast?_isSome.mpr (List.cons_ne_nil y ys))
  refine ⟨x, b, y, r, ?_, rfl, hb, rfl, hrr⟩
  unfold boundsMatch
  rw [List.head?_cons, List.head?_cons, hb, hrr]

lemma boundsMatch_zero_left (ridx cidx : List Nat) (hr : ridx = []) :
    boundsMatch ridx cidx = ⟨0, 0, 0, 0⟩ := by
  subst hr
  rfl

lemma boundsMatch_zero_right (ridx cidx : List Nat) (hc : cidx = []) :
    boundsMatch ridx cidx = ⟨0, 0, 0, 0⟩ := by
  subst hc
  rcases ridx with _ | ⟨x, xs⟩ <;> rfl

/-! ## Helper lemmas: `list.index` and the `_data` accessor -/

lemma pyListIndex_first (v : Int) : ∀ (l : List Int) (i : Nat),
    l.getD i 0 = v → i < l.length → (∀ j < i, l.getD j 0 ≠ v) →
    pyListIndex l v = some i
  | [], i => by
    intro _ hlen _
    simp at hlen
  | x :: rest, 0 => by
    intro hv _ _
    simp only [List.getD_cons_zero] at hv
    simp [pyListIndex, hv]
  | x :: rest, i + 1 => by
    intro hv hlen hprev
    have hx : ¬(x = v) := by
      have h0 := hprev 0 (Nat.succ_pos i)
      simpa using h0
    have ih := pyListIndex_first v rest i (by simpa using hv) (by simpa using hlen)
      (fun j hj => by simpa using hprev (j + 1) (Nat.succ_lt_succ hj))
    simp [pyListIndex, hx, ih]

lemma pyListIndex_not_mem (v : Int) : ∀ (l : List Int), v ∉ l → pyListIndex l v = none
  | [], _ => rfl
  | x :: rest, h => by
    have hx : ¬(x = v) := fun e => h (by simp [e])
    simp [pyListIndex, hx, pyListIndex_not_mem v rest (fun hm => h (by simp [hm]))]

lemma image_index_get_of_lookup (dat : List (String × Int)) (v : Int)
    (hv : dat.lookup "image_index" = some v) : image_index_get dat = Except.ok v := by
  unfold image_index_get
  rw [hv]

lemma image_index_get_of_missing (dat : List (String × Int))
    (hv : dat.lookup "image_index" = none) :
    image_index_get dat = Except.error ⟨"AssertionError",
      "Annotation\x27s _data did not contain \x27image_index\x27: " ++ fmtData dat⟩ := by
  unfold image_index_get
  rw [hv]

/-! ## Reduction of `create_uploadable` on a valid 2-D boolean input -/

lemma create_uploadable_eq (h w : Nat) (dat : List Nat) (cid : Int) (bd : MaskBounds)
    (hb : get_bool_mask_bounds (PyVal.ndarray NpDType.bool [h, w] dat) = Except.ok bd) :
    create_uploadable (PyVal.ndarray NpDType.bool [h, w] dat) cid =
      Except.ok ⟨some "mask", some "1UC1",
        some ⟨"data:image/png;base64," ++ String.mk (b64encodeList (pngEncode h w
            ((dat.map (fun e => e * 255 % 256)).map (fun p => if 128 ≤ p then 1 else 0)))),
          w, h, none,
          ⟨bd.left, bd.right, bd.top, bd.bottom,
            bd.right - bd.left, bd.bottom - bd.top⟩⟩,
        some cid⟩ := by
  have e : create_uploadable (PyVal.ndarray NpDType.bool [h, w] dat) cid =
      (match get_bool_mask_bounds (PyVal.ndarray NpDType.bool [h, w] dat) with
       | Except.error err => Except.error err
       | Except.ok bounds =>
           Except.ok (⟨some "mask", some "1UC1",
             some ⟨"data:image/png;base64," ++ String.mk (b64encodeList (pngEncode h w
                 ((dat.map (fun e => e * 255 % 256)).map
                   (fun p => if 128 ≤ p then 1 else 0)))),
               w, h, none,
               ⟨bounds.left, bounds.right, bounds.top, bounds.bottom,
                 bounds.right - bounds.left, bounds.bottom - bounds.top⟩⟩,
             some cid⟩ : Uploadable)) := rfl
  rw [e, hb]

lemma filter_range_head?_spec (p : Nat → Bool) (n t : Nat)
    (h : ((List.range n).filter p).head? = some t) :
    t < n ∧ p t = true ∧ ∀ i < t, p i = false := by
  rcases hfl : (List.range n).filter p with _ | ⟨x, xs⟩
  · rw [hfl] at h
    simp at h
  · rw [hfl, List.head?_cons] at h
    obtain rfl : x = t := by injection h
    exact filter_range_head p n _ _ hfl

lemma filter_range_getLast?_spec (p : Nat → Bool) (n y : Nat)
    (h : ((List.range n).filter p).getLast? = some y) :
    y < n ∧ p y = true ∧ ∀ i, y < i → i < n → p i = false :=
  filter_range_getLast p n _ y rfl h

/-! ## Claims -/

/-- C10: `AnnotationMask.__init__` never succeeds — for every combination
of arguments it raises a `TypeError`, because the superclass call passes
9 positional arguments (the bound `self`, plus `self` again explicitly,
plus 7 more) to `_Annotation.__init__`, which accepts at most 4 (`self`,
`collection`, `annotation_data`, optional `source`). -/
theorem AnnotMask_init_always_TypeError (collection : Collection) (row_index_arg : Int)
    (source from_filepath from_url imageset_id image_index_arg : Option String) :
    AnnotMask_init collection row_index_arg source from_filepath from_url imageset_id
        image_index_arg =
      Except.error ⟨"TypeError",
        "__init__() takes from 3 to 4 positional arguments but 9 were given"⟩ := rfl

/-- C8: the `_image_index` accessor fails with an `AssertionError` whose
message names the missing `image_index` key when the record lacks it, and
returns the stored value unchanged when the key is present. -/
theorem image_index_access (dat : List (String × Int)) :
    (dat.lookup "image_index" = none →
      image_index_get dat = Except.error ⟨"AssertionError",
        "Annotation\x27s _data did not contain \x27image_index\x27: " ++ fmtData dat⟩) ∧
    (∀ v, dat.lookup "image_index" = some v → image_index_get dat = Except.ok v) :=
  ⟨fun hv => image_index_get_of_missing dat hv,
   fun v hv => image_index_get_of_lookup dat v hv⟩

/-- Witness for C8 at concrete records. -/
theorem image_index_access_witness :
    image_index_get [("type", 0)] = Except.error ⟨"AssertionError",
      "Annotation\x27s _data did not contain \x27image_index\x27: " ++ fmtData [("type", 0)]⟩ ∧
    image_index_get [("image_index", 3)] = Except.ok 3 :=
  ⟨(image_index_access [("type", 0)]).1 rfl,
   (image_index_access [("image_index", 3)]).2 3 rfl⟩

/-- C9: `row_index` returns the position of the record's image index
within the lookup sequence obtained from the collection for the
annotation's source (the first occurrence index, as Python `list.index`),
and propagates the container's `ValueError` when the image index is
absent from the sequence. -/
theorem row_index_access (col : Collection) (source : Option String)
    (dat : List (String × Int)) (v : Int)
    (hv : dat.lookup "image_index" = some v) :
    (∀ i, (col.image_meta_lookup source).getD i 0 = v →
      i < (col.image_meta_lookup source).length →
      (∀ j < i, (col.image_meta_lookup source).getD j 0 ≠ v) →
      row_index_get col source dat = Except.ok i) ∧
    (v ∉ col.image_meta_lookup source →
      ∃ e, row_index_get col source dat = Except.error e ∧ e.cls = "ValueError") := by
  constructor
  · intro i hgi hlen hfirst
    unfold row_index_get
    rw [image_index_get_of_lookup dat v hv]
    show (match pyListIndex (col.image_meta_lookup source) v with
          | some i => Except.ok i
          | none => Except.error (PyErr.mk "ValueError" (toString v ++ " is not in list"))) =
        Except.ok i
    rw [pyListIndex_first v _ i hgi hlen hfirst]
  · intro hnm
    refine ⟨PyErr.mk "ValueError" (toString v ++ " is not in list"), ?_, rfl⟩
    unfold row_index_get
    rw [image_index_get_of_lookup dat v hv]
    show (match pyListIndex (col.image_meta_lookup source) v with
          | some i => Except.ok i
          | none => Except.error (PyErr.mk "ValueError" (toString v ++ " is not in list"))) =
        Except.error (PyErr.mk "ValueError" (toString v ++ " is not in list"))
    rw [pyListIndex_not_mem v _ hnm]

/-- Witness for C9: image index 7 sits at position 1 of `[5, 7, 9]`; a
lookup sequence without 7 yields a `ValueError`. -/
theorem row_index_access_witness :
    ([(("image_index" : String), (7 : Int))].lookup "image_index" = some 7) ∧
    row_index_get ⟨fun _ => [5, 7, 9]⟩ none [("image_index", 7)] = Except.ok 1 ∧
    (∃ e, row_index_get ⟨fun _ => [5, 9]⟩ none [("image_index", 7)] = Except.error e ∧
      e.cls = "ValueError") := by
  refine ⟨rfl, ?_, ?_⟩
  · exact (row_index_access ⟨fun _ => [5, 7, 9]⟩ none [("image_index", 7)] 7 rfl).1 1
      (by decide) (by decide) (by decide)
  · exact (row_index_access ⟨fun _ => [5, 9]⟩ none [("image_index", 7)] 7 rfl).2 (by decide)

/-- C4 counterexample: `parse_bool_masks` rejects a non-array input with
an `AssertionError` (a Python `assert` statement), which is not a
`TypeError` — in Python, `AssertionError` is not `TypeError` nor a
subclass of it. -/
theorem parse_bool_masks_not_TypeError :
    parse_bool_masks (PyVal.other "<class \x27list\x27>") =
      Except.error ⟨"AssertionError",
        "Expected bool_masks to be a numpy array, not <class \x27list\x27>"⟩ ∧
    ("AssertionError" : String) ≠ "TypeError" :=
  ⟨rfl, by decide⟩

/-- C4 (amended): `parse_bool_masks` maps a 2-dimensional `(h, w)` boolean
array to shape `(h, w, 1)` with unchanged data, returns every other
dimensionality unchanged, and fails with an assertion-class error
(`AssertionError`, not `TypeError`) when the input is not a numpy array
or not of boolean dtype. -/
theorem parse_bool_masks_spec :
    (∀ h w dat, parse_bool_masks (PyVal.ndarray NpDType.bool [h, w] dat) =
      Except.ok (PyVal.ndarray NpDType.bool [h, w, 1] dat)) ∧
    (∀ shape dat, shape.length ≠ 2 →
      parse_bool_masks (PyVal.ndarray NpDType.bool shape dat) =
        Except.ok (PyVal.ndarray NpDType.bool shape dat)) ∧
    (∀ t, ∃ e, parse_bool_masks (PyVal.other t) = Except.error e ∧
      e.cls = "AssertionError") ∧
    (∀ dt shape dat, dt ≠ NpDType.bool →
      ∃ e, parse_bool_masks (PyVal.ndarray dt shape dat) = Except.error e ∧
        e.cls = "AssertionError") := by
  refine ⟨fun h w dat => rfl, ?_, fun t => ⟨_, rfl, rfl⟩, ?_⟩
  · intro shape dat hs
    simp only [parse_bool_masks]
    rw [if_neg (by simp), if_neg hs]
  · intro dt shape dat hdt
    refine ⟨PyErr.mk "AssertionError"
      ("Expected bool_masks to have dtype == bool, not " ++ dtypeName dt), ?_, rfl⟩
    simp only [parse_bool_masks]
    rw [if_pos hdt]

/-- Witness for the amended C4 at concrete arrays. -/
theorem parse_bool_masks_spec_witness :
    parse_bool_masks (PyVal.ndarray NpDType.bool [1, 2] [0, 1]) =
      Except.ok (PyVal.ndarray NpDType.bool [1, 2, 1] [0, 1]) ∧
    parse_bool_masks (PyVal.ndarray NpDType.bool [1, 2, 3] [0, 1, 0, 1, 0, 1]) =
      Except.ok (PyVal.ndarray NpDType.bool [1, 2, 3] [0, 1, 0, 1, 0, 1]) ∧
    (∃ e, parse_bool_masks (PyVal.other "<class \x27dict\x27>") = Except.error e ∧
      e.cls = "AssertionError") ∧
    (∃ e, parse_bool_masks (PyVal.ndarray (NpDType.other "int64") [2, 2] [1, 0, 0, 1]) =
      Except.error e ∧ e.cls = "AssertionError") :=
  ⟨parse_bool_masks_spec.1 1 2 [0, 1],
   parse_bool_masks_spec.2.1 [1, 2, 3] [0, 1, 0, 1, 0, 1] (by decide),
   parse_bool_masks_spec.2.2.1 "<class \x27dict\x27>",
   parse_bool_masks_spec.2.2.2 (NpDType.other "int64") [2, 2] [1, 0, 0, 1] (by decide)⟩

/-- C5 counterexample: `create_uploadable` rejects a non-array input with
an `AssertionError` (a Python `assert` statement), which is neither a
`TypeError` nor a `ValueError`, nor a subclass of either. -/
theorem create_uploadable_not_TypeError :
    create_uploadable (PyVal.other "<class \x27list\x27>") 0 =
      Except.error ⟨"AssertionError",
        "Expected bool_mask to be a numpy array, not <class \x27list\x27>"⟩ ∧
    ("AssertionError" : String) ≠ "TypeError" ∧
    ("AssertionError" : String) ≠ "ValueError" :=
  ⟨rfl, by decide, by decide⟩

/-- C5 (amended): every input to `AnnotationMask.create_uploadable` that
is not a numpy array, not of boolean dtype, or not exactly 2-dimensional
fails with an assertion-class error (`AssertionError`, not
`TypeError`/`ValueError`) whose message describes the expected versus
actual type, dtype or shape; the call returns an error and no partial
uploadable, failing on the assertions placed before any encoding work. -/
theorem create_uploadable_rejects_invalid :
    (∀ t cid, create_uploadable (PyVal.other t) cid =
      Except.error ⟨"AssertionError",
        "Expected bool_mask to be a numpy array, not " ++ t⟩) ∧
    (∀ dt shape dat cid, dt ≠ NpDType.bool →
      create_uploadable (PyVal.ndarray dt shape dat) cid =
        Except.error ⟨"AssertionError",
          "Expected bool_mask.dtype to be bool, not " ++ dtypeName dt⟩) ∧
    (∀ shape dat cid, shape.length ≠ 2 →
      create_uploadable (PyVal.ndarray NpDType.bool shape dat) cid =
        Except.error ⟨"AssertionError",
          "Expected bool_mask to have a shape of 2 (height, width), not " ++
            fmtShape shape⟩) := by
  refine ⟨fun t cid => rfl, ?_, ?_⟩
  · intro dt shape dat cid hdt
    simp only [create_uploadable]
    rw [if_pos hdt]
  · intro shape dat cid hs
    simp only [create_uploadable]
    rw [if_neg (by simp), if_pos hs]

/-- Witness for the amended C5: a list, a float array, and a 1-D array
are each rejected with the matching `AssertionError` message. -/
theorem create_uploadable_rejects_invalid_witness :
    create_uploadable (PyVal.other "<class \x27str\x27>") 1 =
      Except.error ⟨"AssertionError",
        "Expected bool_mask to be a numpy array, not <class \x27str\x27>"⟩ ∧
    create_uploadable (PyVal.ndarray (NpDType.other "float64") [2, 2] [1, 0, 0, 1]) 1 =
      Except.error ⟨"AssertionError",
        "Expected bool_mask.dtype to be bool, not float64"⟩ ∧
    create_uploadable (PyVal.ndarray NpDType.bool [4] [1, 0, 0, 1]) 1 =
      Except.error ⟨"AssertionError",
        "Expected bool_mask to have a shape of 2 (height, width), not (4)"⟩ :=
  ⟨create_uploadable_rejects_invalid.1 "<class \x27str\x27>" 1,
   create_uploadable_rejects_invalid.2.1 (NpDType.other "float64") [2, 2] [1, 0, 0, 1] 1
     (by decide),
   create_uploadable_rejects_invalid.2.2 [4] [1, 0, 0, 1] 1 (by decide)⟩

lemma all_zero_getD : ∀ (l : List Nat), (∀ e ∈ l, e = 0) → ∀ k, l.getD k 0 = 0
  | [], _, k => by cases k <;> rfl
  | x :: l, hz, 0 => by simpa using hz x (by simp)
  | x :: l, hz, k + 1 => by
    simpa using all_zero_getD l (fun e he => hz e (by simp [he])) k

/-- C3: for an all-false boolean mask of any 2-D shape (a Mask is a 2-D
boolean array), `get_bool_mask_bounds` returns all-zero bounds instead of
raising (the bare `except:` fallback), and the `roi` assembled by
`create_uploadable` has `xmin = xmax = ymin = ymax = 0` and
`width = height = 0`. -/
theorem empty_mask_bounds_and_roi (h w : Nat) (dat : List Nat) (cid : Int)
    (_hlen : dat.length = h * w) (hz : ∀ e ∈ dat, e = 0) :
    get_bool_mask_bounds (PyVal.ndarray NpDType.bool [h, w] dat) =
      Except.ok ⟨0, 0, 0, 0⟩ ∧
    ∃ u md, create_uploadable (PyVal.ndarray NpDType.bool [h, w] dat) cid = Except.ok u ∧
      u.annot = some md ∧ md.roi = ⟨0, 0, 0, 0, 0, 0⟩ := by
  have hget : ∀ k, dat.getD k 0 = 0 := all_zero_getD dat hz
  have hrow : ∀ i, rowAnyB w 1 dat i = false := fun i =>
    (rowAnyB_false_iff _ _ _ _).mpr (fun j _ => by rw [planeVal_one]; exact hget _)
  have hr : (List.range h).filter (rowAnyB w 1 dat) = [] :=
    (filter_range_eq_nil_iff _ _).mpr (fun i _ => hrow i)
  have hb : get_bool_mask_bounds (PyVal.ndarray NpDType.bool [h, w] dat) =
      Except.ok ⟨0, 0, 0, 0⟩ := by
    rw [get_bool_mask_bounds_eq, boundsMatch_zero_left _ _ hr]
  refine ⟨hb, ?_⟩
  rw [create_uploadable_eq h w dat cid ⟨0, 0, 0, 0⟩ hb]
  exact ⟨_, _, rfl, rfl, rfl⟩

/-- Witness for C3 at a concrete all-false 2×3 mask. -/
theorem empty_mask_bounds_and_roi_witness :
    ([0, 0, 0, 0, 0, 0] : List Nat).length = 2 * 3 ∧
    (get_bool_mask_bounds (PyVal.ndarray NpDType.bool [2, 3] [0, 0, 0, 0, 0, 0]) =
        Except.ok ⟨0, 0, 0, 0⟩ ∧
      ∃ u md, create_uploadable (PyVal.ndarray NpDType.bool [2, 3] [0, 0, 0, 0, 0, 0]) 5 =
        Except.ok u ∧ u.annot = some md ∧ md.roi = ⟨0, 0, 0, 0, 0, 0⟩) :=
  ⟨rfl, empty_mask_bounds_and_roi 2 3 [0, 0, 0, 0, 0, 0] 5 rfl (by decide)⟩

/-- C2: for a 2-D boolean plane holding at least one true value,
`get_bool_mask_bounds` returns `top`/`bottom` equal to the first/last row
indices whose row holds a true, and `left`/`right` equal to the
first/last column indices whose column holds a true. The single-pixel and
all-true cases of the claim are instances of this characterization. -/
theorem bounds_first_last (h w : Nat) (dat : List Nat) (_hlen : dat.length = h * w)
    (i0 j0 : Nat) (hi0 : i0 < h) (hj0 : j0 < w)
    (hval : dat.getD (i0 * w + j0) 0 ≠ 0) :
    ∃ bd, get_bool_mask_bounds (PyVal.ndarray NpDType.bool [h, w] dat) = Except.ok bd ∧
      bd.top < h ∧ (∃ j < w, dat.getD (bd.top * w + j) 0 ≠ 0) ∧
        (∀ i < bd.top, ∀ j < w, dat.getD (i * w + j) 0 = 0) ∧
      bd.bottom < h ∧ (∃ j < w, dat.getD (bd.bottom * w + j) 0 ≠ 0) ∧
        (∀ i, bd.bottom < i → i < h → ∀ j < w, dat.getD (i * w + j) 0 = 0) ∧
      bd.left < w ∧ (∃ i < h, dat.getD (i * w + bd.left) 0 ≠ 0) ∧
        (∀ j < bd.left, ∀ i < h, dat.getD (i * w + j) 0 = 0) ∧
      bd.right < w ∧ (∃ i < h, dat.getD (i * w + bd.right) 0 ≠ 0) ∧
        (∀ j, bd.right < j → j < w → ∀ i < h, dat.getD (i * w + j) 0 = 0) := by
  have rowT : ∀ i, rowAnyB w 1 dat i = true → ∃ j < w, dat.getD (i * w + j) 0 ≠ 0 := by
    intro i hi
    obtain ⟨j, hjw, hjv⟩ := (rowAnyB_true_iff _ _ _ _).mp hi
    exact ⟨j, hjw, by rwa [planeVal_one] at hjv⟩
  have rowF : ∀ i, rowAnyB w 1 dat i = false → ∀ j < w, dat.getD (i * w + j) 0 = 0 := by
    intro i hi j hj
    have hv := (rowAnyB_false_iff _ _ _ _).mp hi j hj
    rwa [planeVal_one] at hv
  have colT : ∀ j, colAnyB h w 1 dat j = true → ∃ i < h, dat.getD (i * w + j) 0 ≠ 0 := by
    intro j hj
    obtain ⟨i, hih, hiv⟩ := (colAnyB_true_iff _ _ _ _ _).mp hj
    exact ⟨i, hih, by rwa [planeVal_one] at hiv⟩
  have colF : ∀ j, colAnyB h w 1 dat j = false → ∀ i < h, dat.getD (i * w + j) 0 = 0 := by
    intro j hj i hi
    have hv := (colAnyB_false_iff _ _ _ _ _).mp hj i hi
    rwa [planeVal_one] at hv
  have hrow0 : rowAnyB w 1 dat i0 = true :=
    (rowAnyB_true_iff _ _ _ _).mpr ⟨j0, hj0, by rw [planeVal_one]; exact hval⟩
  have hcol0 : colAnyB h w 1 dat j0 = true :=
    (colAnyB_true_iff _ _ _ _ _).mpr ⟨i0, hi0, by rw [planeVal_one]; exact hval⟩
  have hrne : (List.range h).filter (rowAnyB w 1 dat) ≠ [] := by
    intro hnil
    have hf := (filter_range_eq_nil_iff _ _).mp hnil i0 hi0
    rw [hrow0] at hf
    exact Bool.noConfusion hf
  have hcne : (List.range w).filter (colAnyB h w 1 dat) ≠ [] := by
    intro hnil
    have hf := (filter_range_eq_nil_iff _ _).mp hnil j0 hj0
    rw [hcol0] at hf
    exact Bool.noConfusion hf
  obtain ⟨t, b, l, r, hbm, hhd, hgl, hch, hcl⟩ := boundsMatch_of_ne_nil _ _ hrne hcne
  obtain ⟨ht1, ht2, ht3⟩ := filter_range_head?_spec _ _ _ hhd
  obtain ⟨hb1, hb2, hb3⟩ := filter_range_getLast?_spec _ _ _ hgl
  obtain ⟨hl1, hl2, hl3⟩ := filter_range_head?_spec _ _ _ hch
  obtain ⟨hr1, hr2, hr3⟩ := filter_range_getLast?_spec _ _ _ hcl
  exact ⟨⟨t, b, l, r⟩, by rw [get_bool_mask_bounds_eq, hbm], ht1, rowT t ht2,
    fun i hi => rowF i (ht3 i hi), hb1, rowT b hb2,
    fun i hbi hih => rowF i (hb3 i hbi hih), hl1, colT l hl2,
    fun j hj => colF j (hl3 j hj), hr1, colT r hr2,
    fun j hrj hjw => colF j (hr3 j hrj hjw)⟩

/-- Witness for C2: a single true pixel at row 1, column 1 of a 2×3 mask
gives `top = bottom = 1` and `left = right = 1` under the
characterization. -/
theorem bounds_first_last_witness :
    (([0, 0, 0, 0, 1, 0] : List Nat).getD (1 * 3 + 1) 0 ≠ 0) ∧
    (∃ bd, get_bool_mask_bounds
        (PyVal.ndarray NpDType.bool [2, 3] [0, 0, 0, 0, 1, 0]) = Except.ok bd ∧
      bd.top < 2 ∧ (∃ j < 3, ([0, 0, 0, 0, 1, 0] : List Nat).getD (bd.top * 3 + j) 0 ≠ 0) ∧
        (∀ i < bd.top, ∀ j < 3, ([0, 0, 0, 0, 1, 0] : List Nat).getD (i * 3 + j) 0 = 0) ∧
      bd.bottom < 2 ∧
        (∃ j < 3, ([0, 0, 0, 0, 1, 0] : List Nat).getD (bd.bottom * 3 + j) 0 ≠ 0) ∧
        (∀ i, bd.bottom < i → i < 2 → ∀ j < 3,
          ([0, 0, 0, 0, 1, 0] : List Nat).getD (i * 3 + j) 0 = 0) ∧
      bd.left < 3 ∧ (∃ i < 2, ([0, 0, 0, 0, 1, 0] : List Nat).getD (i * 3 + bd.left) 0 ≠ 0) ∧
        (∀ j < bd.left, ∀ i < 2, ([0, 0, 0, 0, 1, 0] : List Nat).getD (i * 3 + j) 0 = 0) ∧
      bd.right < 3 ∧
        (∃ i < 2, ([0, 0, 0, 0, 1, 0] : List Nat).getD (i * 3 + bd.right) 0 ≠ 0) ∧
        (∀ j, bd.right < j → j < 3 → ∀ i < 2,
          ([0, 0, 0, 0, 1, 0] : List Nat).getD (i * 3 + j) 0 = 0)) :=
  ⟨by decide, bounds_first_last 2 3 [0, 0, 0, 0, 1, 0] rfl 1 1 (by decide) (by decide)
    (by decide)⟩

/-- C7: the `roi` produced by the encoder from any 2-D boolean mask
satisfies `xmin ≤ xmax` and `ymin ≤ ymax` (equality permitted, including
the degenerate all-zero case), with `width = xmax - xmin` and
`height = ymax - ymin`; all six values are natural numbers, hence
non-negative by construction. -/
theorem roi_invariant (h w : Nat) (dat : List Nat) (cid : Int) :
    ∃ u md, create_uploadable (PyVal.ndarray NpDType.bool [h, w] dat) cid = Except.ok u ∧
      u.annot = some md ∧
      md.roi.xmin ≤ md.roi.xmax ∧ md.roi.ymin ≤ md.roi.ymax ∧
      md.roi.width = md.roi.xmax - md.roi.xmin ∧
      md.roi.height = md.roi.ymax - md.roi.ymin := by
  by_cases hrne : (List.range h).filter (rowAnyB w 1 dat) = []
  · have hb : get_bool_mask_bounds (PyVal.ndarray NpDType.bool [h, w] dat) =
        Except.ok ⟨0, 0, 0, 0⟩ := by
      rw [get_bool_mask_bounds_eq, boundsMatch_zero_left _ _ hrne]
    rw [create_uploadable_eq h w dat cid ⟨0, 0, 0, 0⟩ hb]
    exact ⟨_, _, rfl, rfl, Nat.le_refl 0, Nat.le_refl 0, rfl, rfl⟩
  · by_cases hcne : (List.range w).filter (colAnyB h w 1 dat) = []
    · have hb : get_bool_mask_bounds (PyVal.ndarray NpDType.bool [h, w] dat) =
          Except.ok ⟨0, 0, 0, 0⟩ := by
        rw [get_bool_mask_bounds_eq, boundsMatch_zero_right _ _ hcne]
      rw [create_uploadable_eq h w dat cid ⟨0, 0, 0, 0⟩ hb]
      exact ⟨_, _, rfl, rfl, Nat.le_refl 0, Nat.le_refl 0, rfl, rfl⟩
    · obtain ⟨t, b, l, r, hbm, hhd, hgl, hch, hcl⟩ := boundsMatch_of_ne_nil _ _ hrne hcne
      obtain ⟨ht1, ht2, ht3⟩ := filter_range_head?_spec _ _ _ hhd
      obtain ⟨hb1, hb2, hb3⟩ := filter_range_getLast?_spec _ _ _ hgl
      obtain ⟨hl1, hl2, hl3⟩ := filter_range_head?_spec _ _ _ hch
      obtain ⟨hr1, hr2, hr3⟩ := filter_range_getLast?_spec _ _ _ hcl
      have htb : t ≤ b := by
        by_contra hc
        have hf := ht3 b (Nat.lt_of_not_le hc)
        rw [hb2] at hf
        exact Bool.noConfusion hf
      have hlr : l ≤ r := by
        by_contra hc
        have hf := hl3 r (Nat.lt_of_not_le hc)
        rw [hr2] at hf
        exact Bool.noConfusion hf
      have hbnd : get_bool_mask_bounds (PyVal.ndarray NpDType.bool [h, w] dat) =
          Except.ok ⟨t, b, l, r⟩ := by
        rw [get_bool_mask_bounds_eq, hbm]
      rw [create_uploadable_eq h w dat cid ⟨t, b, l, r⟩ hbnd]
      exact ⟨_, _, rfl, rfl, hlr, htb, rfl, rfl⟩

/-- C6: for every 2-D boolean mask of shape `(h, w)` and class id, the
uploadable has `type = "mask"`, `format = "1UC1"`,
`annotation.width = w`, `annotation.height = h`, `score = null`,
`class_id` equal to the (identity) integer coercion of the class id, and
an `roi` whose `width` is `xmax - xmin` and whose `height` is
`ymax - ymin`. -/
theorem create_uploadable_structure (h w : Nat) (dat : List Nat) (cid : Int) :
    ∃ u md, create_uploadable (PyVal.ndarray NpDType.bool [h, w] dat) cid = Except.ok u ∧
      u.annot = some md ∧ u.type = some "mask" ∧ u.format = some "1UC1" ∧
      md.width = w ∧ md.height = h ∧ md.score = none ∧ u.class_id = some cid ∧
      md.roi.width = md.roi.xmax - md.roi.xmin ∧
      md.roi.height = md.roi.ymax - md.roi.ymin := by
  obtain ⟨bd, hbd⟩ : ∃ bd,
      get_bool_mask_bounds (PyVal.ndarray NpDType.bool [h, w] dat) = Except.ok bd := by
    rw [get_bool_mask_bounds_eq]
    exact ⟨_, rfl⟩
  rw [create_uploadable_eq h w dat cid bd hbd]
  exact ⟨_, _, rfl, rfl, rfl, rfl, rfl, rfl, rfl, rfl, rfl, rfl⟩

lemma decodeMaskString_append (chars : List Char) :
    decodeMaskString ("data:image/png;base64," ++ String.mk chars) =
      (match pngDecode (b64decodeList chars) with
       | some (h, w, pixels) =>
           some (unflatten h w (pixels.map (fun p => decide (p = 255))))
       | none => none) := by
  simp only [decodeMaskString]
  have hsplit : ("data:image/png;base64," ++ String.mk chars).toList =
      "data:image/png;base64,".toList ++ chars := rfl
  have h22 : ("data:image/png;base64,".toList : List Char).length = 22 := rfl
  have htake : ("data:image/png;base64,".toList ++ chars).take 22 =
      "data:image/png;base64,".toList := by
    rw [← h22]
    exact List.take_left _ _
  have hdrop : ("data:image/png;base64,".toList ++ chars).drop 22 = chars := by
    rw [← h22]
    exact List.drop_left _ _
  rw [hsplit, htake, hdrop, if_pos rfl]

/-- C1: round trip — for any rectangular 2-D boolean array `A` (within
the 4-byte dimension range of the raster format), decoding the data-URI
mask string produced by `create_uploadable` (strip the data-URI prefix,
base64-decode, decompress the image, threshold `pixel == 255 → true`)
yields a boolean plane equal to `A` element-wise. -/
theorem mask_roundtrip (A : List (List Bool)) (w : Nat) (cid : Int)
    (hrect : ∀ r ∈ A, r.length = w)
    (hh : A.length < 4294967296) (hw : w < 4294967296) :
    ∃ u md, create_uploadable
        (PyVal.ndarray NpDType.bool [A.length, w]
          (A.flatten.map (fun x => if x then 1 else 0))) cid = Except.ok u ∧
      u.annot = some md ∧ decodeMaskString md.mask = some A := by
  obtain ⟨bd, hbd⟩ : ∃ bd, get_bool_mask_bounds (PyVal.ndarray NpDType.bool [A.length, w]
      (A.flatten.map (fun x => if x then 1 else 0))) = Except.ok bd := by
    rw [get_bool_mask_bounds_eq]
    exact ⟨_, rfl⟩
  have hbits : ((A.flatten.map (fun x : Bool => if x then (1 : Nat) else 0)).map
        (fun e => e * 255 % 256)).map (fun p => if 128 ≤ p then 1 else 0) =
      A.flatten.map (fun x : Bool => if x then (1 : Nat) else 0) := by
    induction A.flatten with
    | nil => rfl
    | cons x xs ih =>
      simp only [List.map_cons]
      rw [ih]
      cases x <;> rfl
  have hcu := create_uploadable_eq A.length w
    (A.flatten.map (fun x : Bool => if x then (1 : Nat) else 0)) cid bd hbd
  rw [hbits] at hcu
  rw [hcu]
  refine ⟨_, _, rfl, rfl, ?_⟩
  show decodeMaskString ("data:image/png;base64," ++ String.mk (b64encodeList
      (pngEncode A.length w
        (A.flatten.map (fun x : Bool => if x then (1 : Nat) else 0))))) = some A
  have hblt : ∀ x ∈ A.flatten.map (fun x : Bool => if x then (1 : Nat) else 0),
      x < 256 := by
    intro x hx
    simp only [List.mem_map] at hx
    obtain ⟨bl, _, rfl⟩ := hx
    cases bl <;> norm_num
  have hblen : (A.flatten.map (fun x : Bool => if x then (1 : Nat) else 0)).length =
      A.length * w := by
    rw [List.length_map, flatten_length_rect w A hrect]
  rw [decodeMaskString_append, b64_roundtrip _ (pngEncode_bytes_lt _ _ _ hblt),
    pngDecode_pngEncode _ _ _ hh hw hblen]
  show some (unflatten A.length w
      (((A.flatten.map (fun x : Bool => if x then (1 : Nat) else 0)).map
          (fun b => if b ≠ 0 then (255 : Nat) else 0)).map
        (fun p => decide (p = 255)))) = some A
  have hmapid : ((A.flatten.map (fun x : Bool => if x then (1 : Nat) else 0)).map
        (fun b => if b ≠ 0 then (255 : Nat) else 0)).map
      (fun p => decide (p = 255)) = A.flatten := by
    induction A.flatten with
    | nil => rfl
    | cons x xs ih =>
      simp only [List.map_cons]
      rw [ih]
      cases x <;> rfl
  rw [hmapid, unflatten_flatten w A hrect]

/-- Witness for C1: the 2×2 checkerboard mask round-trips through the
encoder and decoder. -/
theorem mask_roundtrip_witness :
    (∀ r ∈ [[true, false], [false, true]], r.length = 2) ∧
    (∃ u md, create_uploadable
        (PyVal.ndarray NpDType.bool [2, 2]
          (([[true, false], [false, true]] : List (List Bool)).flatten.map
            (fun x => if x then 1 else 0))) 7 = Except.ok u ∧
      u.annot = some md ∧
      decodeMaskString md.mask = some [[true, false], [false, true]]) :=
  ⟨by decide, mask_roundtrip [[true, false], [false, true]] 2 7 (by decide) (by decide)
    (by decide)⟩
